import Mathlib

/-!
Verification of the text-utility pipeline (`src/safety.py`, `src/run_query.py`).

Python strings are embedded as `List Char`; Python floats that carry exact
decimal values (confidences, scores, costs) are embedded as `ℚ`; the regular
expressions of `safety.py` are embedded as executable backtracking matchers
that follow Python `re` semantics (leftmost match, greedy/lazy quantifier
order, alternation tried left to right, `\b` word boundaries, `$` also
matching before a final newline).  Only ASCII inputs are considered, on which
Python's `\w`, `\s`, `str.strip`, `str.lower` agree with the ASCII-level
definitions used here.
-/

namespace TextUtil

/-- Python `\w` on ASCII: letters, digits, underscore. -/
def isWordC (c : Char) : Bool := c.isAlphanum || c == '_'

/-- Python `\s` on ASCII: space, tab, newline, carriage return, vertical tab, form feed. -/
def isPySpace (c : Char) : Bool :=
  c == ' ' || c == '\t' || c == '\n' || c == '\r' || c == Char.ofNat 11 || c == Char.ofNat 12

/-- Python `str.strip()` (ASCII whitespace on both ends). -/
def pyStrip (s : List Char) : List Char :=
  ((s.dropWhile isPySpace).reverse.dropWhile isPySpace).reverse

/-- ASCII alphanumeric (`[a-zA-Z0-9]`). -/
def isAlnumC (c : Char) : Bool := c.isAlphanum

/-- Word-ness of an optional character; absent counts as non-word (string edge). -/
def isWordO : Option Char → Bool
  | some c => isWordC c
  | none => false

/-- Shorthand for embedding Python string literals. -/
def cs (s : String) : List Char := s.toList

/-- `pat` occurs as a (contiguous) substring of `s` (Python `pat in s`). -/
def containsSub (pat : List Char) : List Char → Bool
  | [] => pat.isEmpty
  | c :: rest => pat.isPrefixOf (c :: rest) || containsSub pat rest

/-- `w` (already lowercase) is a prefix of `s` compared case-insensitively. -/
def lowPrefix : List Char → List Char → Bool
  | [], _ => true
  | _ :: _, [] => false
  | a :: w, b :: s => a == b.toLower && lowPrefix w s

/-- Scan of `re.search` for a `\b`-delimited literal alternative `w` (lowercase,
starting and ending with word characters, as all alternatives of
`SafetyChecker.harmful_patterns` do): some position matches `w`
case-insensitively with non-word (or absent) neighbours on both sides. -/
def boundedSearchAux (w : List Char) : Option Char → List Char → Bool
  | _, [] => false
  | prev, c :: rest =>
    (!(isWordO prev) && lowPrefix w (c :: rest)
        && !(isWordO ((c :: rest).drop w.length).head?))
      || boundedSearchAux w (some c) rest

def boundedSearch (w : List Char) (s : List Char) : Bool := boundedSearchAux w none s

/-- The eight case-insensitive harmful-content regexes of `SafetyChecker.__init__`,
each a `\b(alt|...|alt)\b` alternation of literals. -/
def harmful_patterns : List (List (List Char)) :=
  [ [cs "jailbreak", cs "prompt injection", cs "ignore instructions"],
    [cs "ignore previous", cs "forget everything", cs "system prompt"],
    [cs "act as", cs "pretend to be", cs "roleplay as"],
    [cs "hack", cs "crack", cs "exploit", cs "bypass"],
    [cs "illegal", cs "unlawful", cs "harmful", cs "dangerous"],
    [cs "suicide", cs "self-harm", cs "violence", cs "threat"],
    [cs "personal information", cs "private data", cs "confidential"],
    [cs "phishing", cs "scam", cs "fraud", cs "malware"] ]

/-- `any(p.search(text) for p in compiled_patterns)`: the loop over
`self.compiled_patterns` in `check_safety` / `_check_harmful_content_in_response`. -/
def harmfulMatch (s : List Char) : Bool :=
  harmful_patterns.any (fun g => g.any (fun w => boundedSearch w s))

/-- Python full match `re.match(r'^[class]+$', s)`: the whole string (or the whole
string minus one trailing newline, which Python's `$` permits) is a nonempty run
of `class` characters. -/
def pyFullMatch (p : Char → Bool) (s : List Char) : Bool :=
  (!s.isEmpty && s.all p) ||
    (s.getLast? == some '\n' && !s.dropLast.isEmpty && s.dropLast.all p)

/-- Character class `[\d\s\-\.]` of `_check_invalid_patterns` / `_check_invalid_response_patterns`. -/
def numericClass (c : Char) : Bool := c.isDigit || isPySpace c || c == '-' || c == '.'

/-- Character class `[*]`. -/
def starClass (c : Char) : Bool := c == '*'

/-- Character class `[^a-zA-Z0-9\s]`. -/
def specialClass (c : Char) : Bool := !(isAlnumC c) && !(isPySpace c)

/-- The distinct reasons `SafetyChecker._check_invalid_patterns` can report. -/
inductive InvalidReason where
  | emptyQuestion
  | onlyNumeric
  | onlyAsterisks
  | onlySpecial
  | repetitive
  | lacksContent
  | validFormat
deriving DecidableEq

structure PatternCheck where
  valid : Bool
  reason : InvalidReason
deriving DecidableEq

/-- `SafetyChecker._check_invalid_patterns` (safety.py lines 89-112). -/
def check_invalid_patterns (question : List Char) : PatternCheck :=
  if question.isEmpty then ⟨false, .emptyQuestion⟩
  else
    let stripped := pyStrip question
    if pyFullMatch numericClass stripped then ⟨false, .onlyNumeric⟩
    else if pyFullMatch starClass stripped then ⟨false, .onlyAsterisks⟩
    else if pyFullMatch specialClass stripped then ⟨false, .onlySpecial⟩
    else if (stripped.filter (fun c => c != ' ')).dedup.length ≤ 2 ∧ 5 ≤ stripped.length then
      ⟨false, .repetitive⟩
    else if (stripped.filter (fun c => !(isPySpace c))).length < 3 ∧
        (stripped.filter isAlnumC).length < 3 then
      ⟨false, .lacksContent⟩
    else ⟨true, .validFormat⟩

/-- `SafetyChecker.injection_keywords`. -/
def injection_keywords : List (List Char) :=
  [cs "ignore", cs "forget", cs "override", cs "bypass", cs "jailbreak",
   cs "system", cs "admin", cs "root", cs "privilege", cs "elevate",
   cs "injection", cs "payload", cs "exploit", cs "vulnerability"]

/-- `instruction_phrases` of `_calculate_injection_score`. -/
def instruction_phrases : List (List Char) :=
  [cs "you must", cs "you should", cs "you will", cs "act as",
   cs "pretend to", cs "roleplay as", cs "developer mode",
   cs "admin access", cs "system prompt"]

/-- `adversarial_patterns` of `_calculate_injection_score`. -/
def adversarial_patterns : List (List Char) :=
  [cs "ignore previous", cs "forget everything", cs "override",
   cs "bypass", cs "jailbreak", cs "unrestricted", cs "developer mode"]

/-- `sum(1 for p in ps if p in lowText)`. -/
def countHits (ps : List (List Char)) (lowText : List Char) : Nat :=
  (ps.filter (fun p => containsSub p lowText)).length

/-- Python's binary `min` on rationals (definitionally computable; equal to
`Min.min` by `ratMin_eq_min`). -/
def ratMin (a b : ℚ) : ℚ := if a ≤ b then a else b

theorem ratMin_eq_min (a b : ℚ) : ratMin a b = min a b := by
  rw [ratMin, min_def]

/-- `SafetyChecker._calculate_injection_score` (safety.py lines 114-138), with the
float arithmetic carried out exactly in `ℚ` (all constants are decimal literals;
the capped sums never come close enough to the 0.5 threshold for double rounding
to change any comparison made on the score). -/
def calculate_injection_score (question : List Char) : ℚ :=
  let ql := question.map Char.toLower
  let keywordCount := countHits injection_keywords ql
  let instructionCount := countHits instruction_phrases ql
  let adversarialCount := countHits adversarial_patterns ql
  let score : ℚ := ratMin ((keywordCount : ℚ) * 0.2) 0.6
      + ratMin ((instructionCount : ℚ) * 0.25) 0.4
      + ratMin ((adversarialCount : ℚ) * 0.4) 0.5
  ratMin score 1

/-- The distinct reasons a `check_safety` verdict can report (each constructor
stands for the corresponding literal reason string in safety.py). -/
inductive SafetyReason where
  | emptyOrInvalid                        -- 'Empty or invalid input'
  | tooShort                              -- 'Question too short'
  | tooLong                               -- 'Question too long'
  | invalidPattern (r : InvalidReason)    -- reason from _check_invalid_patterns
  | harmfulContent                        -- 'Detected potentially harmful content'
  | injectionRisk (score : ℚ)             -- 'High probability of prompt injection (score: ..)'
  | inputSafe                             -- 'Input appears safe'
deriving DecidableEq

/-- The `{safe, reason, confidence}` dict returned by `check_safety`. -/
structure Verdict where
  safe : Bool
  reason : SafetyReason
  confidence : ℚ
deriving DecidableEq

/-- A Python value passed as the `question` argument: `None`, a string, or a
non-string object (of which only the truthiness can matter to `check_safety`). -/
inductive PyValue where
  | pynone
  | pystr (s : List Char)
  | pyother (truthy : Bool)
deriving DecidableEq

/-- Python falsiness of the argument (`not question`). -/
def pyFalsy : PyValue → Bool
  | .pynone => true
  | .pystr s => s.isEmpty
  | .pyother t => !t

/-- `isinstance(question, str)`. -/
def pyIsStr : PyValue → Bool
  | .pystr _ => true
  | _ => false

def pyGetStr : PyValue → List Char
  | .pystr s => s
  | _ => []

/-- Body of `SafetyChecker.check_safety` after the `not question or not
isinstance(question, str)` guard (safety.py lines 44-87). -/
def check_safety_str (question : List Char) : Verdict :=
  let qs := pyStrip question
  if qs.length < 3 then ⟨false, .tooShort, 1⟩
  else if 2000 < qs.length then ⟨false, .tooLong, 1⟩
  else
    let inv := check_invalid_patterns qs
    if inv.valid = false then ⟨false, .invalidPattern inv.reason, 1⟩
    else if harmfulMatch qs then ⟨false, .harmfulContent, 0.8⟩
    else
      let score := calculate_injection_score qs
      if 0.5 < score then ⟨false, .injectionRisk score, score⟩
      else ⟨true, .inputSafe, 0.9⟩

/-- `SafetyChecker.check_safety` (safety.py lines 36-87). -/
def check_safety (question : PyValue) : Verdict :=
  if pyFalsy question || !(pyIsStr question) then ⟨false, .emptyOrInvalid, 1⟩
  else check_safety_str (pyGetStr question)

/-! ### The `re.sub` engine

A matcher takes the character preceding the current position (needed for `\b`)
and the remaining suffix, and reports the number of characters consumed
(always ≥ 1 for the patterns of safety.py) together with the replacement text.
`reSubAux` is Python's `re.sub` scan: leftmost match wins, the scan resumes
right after a match (the replacement is not rescanned), and on failure the
scan advances one character. -/

def reSubFuel (m : Option Char → List Char → Option (Nat × List Char)) :
    Nat → Option Char → List Char → List Char
  | 0, _, s => s
  | _ + 1, _, [] => []
  | fuel + 1, prev, c :: rest =>
    match m prev (c :: rest) with
    | some (Nat.succ k, rep) =>
        rep ++ reSubFuel m fuel (some ((c :: rest).getD k c)) (rest.drop k)
    | _ => c :: reSubFuel m fuel (some c) rest

/-- `pattern.search(text)` for the same matcher: some scan position matches. -/
def hasMatch (m : Option Char → List Char → Option (Nat × List Char)) :
    Option Char → List Char → Bool
  | _, [] => false
  | prev, c :: rest => (m prev (c :: rest)).isSome || hasMatch m (some c) rest

/-- `pattern.sub(rep, s)`.  Every step of the scan consumes at least one
character, so `s.length` fuel always suffices. -/
def reSub (m : Option Char → List Char → Option (Nat × List Char))
    (s : List Char) : List Char :=
  reSubFuel m s.length none s

/-! ### Backtracking combinators (Python `re` order: alternation left first,
greedy pieces longest first, lazy pieces shortest first).  A piece maps the
remaining input to the suffix left after it consumed its part. -/

/-- Case-insensitive literal (`w` given lowercase). -/
def pLit (w : List Char) (s : List Char) : Option (List Char) :=
  match w, s with
  | [], s => some s
  | _ :: _, [] => none
  | a :: w', b :: s' => if a == b.toLower then pLit w' s' else none

/-- Single character of a class. -/
def pChar (p : Char → Bool) : List Char → Option (List Char)
  | c :: r => if p c then some r else none
  | [] => none

/-- `class*`, maximal (used only where shortening can never help). -/
def pStar (p : Char → Bool) (s : List Char) : Option (List Char) :=
  some (s.dropWhile p)

/-- `class+`, maximal (used only where shortening can never help). -/
def pPlus (p : Char → Bool) : List Char → Option (List Char)
  | c :: r => if p c then some (r.dropWhile p) else none
  | [] => none

def pSeq (p q : List Char → Option (List Char)) (s : List Char) : Option (List Char) :=
  (p s).bind q

/-- `(p)? k`: greedy option, try `p` then the continuation first. -/
def pOptC (p k : List Char → Option (List Char)) (s : List Char) : Option (List Char) :=
  (pSeq p k s).orElse (fun _ => k s)

/-- `(p|q) k`: alternation with continuation, left branch first. -/
def pAltC (p q k : List Char → Option (List Char)) (s : List Char) : Option (List Char) :=
  (pSeq p k s).orElse (fun _ => pSeq q k s)

/-- `\s+` (maximal; in the patterns below it is always followed by a letter
or the end of the pattern, so backtracking a greedy `\s+` can never help). -/
def pSpaces1 : List Char → Option (List Char) := pPlus isPySpace

/-- Element `i` of a list of characters, as `Option`. -/
def charAt (s : List Char) (i : Nat) : Option Char := (s.drop i).head?

/-- Length of the maximal run of `p`-characters at the front. -/
def maxRun (p : Char → Bool) (s : List Char) : Nat := (s.takeWhile p).length

/-- `\b` at the boundary between `prev` and the head of `s`. -/
def wordBoundaryAt (prev : Option Char) (s : List Char) : Bool :=
  isWordO prev != isWordO s.head?

/-! ### The four PII regexes of `SafetyChecker.__init__` (safety.py lines 30-34). -/

/-- Class `[\w\.-]` of the email pattern. -/
def emailClass (c : Char) : Bool := isWordC c || c == '.' || c == '-'

/-- Tail of `email_pattern` after the `@`: `[\w\.-]+\.\w{2,}\b`.  The first
piece is greedy, so Python tries the split point `j` (characters given to
`[\w\.-]+`) from the maximal class run downwards; `t[j]` must be `.` and must
be followed by at least two word characters, after which the maximal word run
always ends on a `\b`.  Returns the total number of characters consumed. -/
def emailTailTry (t : List Char) : Nat → Option Nat
  | 0 => none
  | n + 1 =>
    let j := n + 1
    if charAt t j == some '.' ∧ 2 ≤ maxRun isWordC (t.drop (j + 1)) then
      some (j + 1 + maxRun isWordC (t.drop (j + 1)))
    else emailTailTry t n

/-- `email_pattern = \b[\w\.-]+@[\w\.-]+\.\w{2,}\b` as a matcher.  The part
before `@` is greedy over a class not containing `@`, so only the maximal run
can precede the literal `@`. -/
def emailMatcher (prev : Option Char) (s : List Char) : Option (Nat × List Char) :=
  if wordBoundaryAt prev s then
    let r1 := maxRun emailClass s
    if r1 = 0 then none
    else if charAt s r1 == some '@' then
      let t := s.drop (r1 + 1)
      (emailTailTry t (maxRun emailClass t)).map
        (fun k => (r1 + 1 + k, cs "[redacted-email]"))
    else none
  else none

/-- Class `[\d\-\s]` of the phone pattern. -/
def phoneClass (c : Char) : Bool := c.isDigit || c == '-' || isPySpace c

/-- Greedy `[\d\-\s]{7,}` followed by `\d\b`:  try the run length `j` downwards
from the maximal class run to 7; `r[j]` must be a digit whose successor is not
a word character.  Returns `j + 1` (the `{7,}` part plus the final digit). -/
def phoneTry (r : List Char) : Nat → Option Nat
  | 0 => none
  | n + 1 =>
    if 7 ≤ n + 1 then
      if (charAt r (n + 1)).elim false Char.isDigit ∧ !(isWordO (charAt r (n + 2))) then
        some (n + 2)
      else phoneTry r n
    else none

/-- `phone_pattern = \b\+?\d[\d\-\s]{7,}\d\b` as a matcher.  A literal `+` is
consumed when present (if the rest then fails, retrying without it would
require `\d` to match `+`, which fails too). -/
def phoneMatcher (prev : Option Char) (s : List Char) : Option (Nat × List Char) :=
  if wordBoundaryAt prev s then
    let (plusLen, s1) := match s with
      | '+' :: r => (1, r)
      | _ => (0, s)
    match s1 with
    | c :: r =>
      if c.isDigit then
        (phoneTry r (maxRun phoneClass r)).map
          (fun k => (plusLen + 1 + k, cs "[redacted-phone]"))
      else none
    | [] => none
  else none

/-- Class `[-\s]` of the account pattern separators. -/
def sepClass (c : Char) : Bool := c == '-' || isPySpace c

/-- `hi, hi-1, ..., lo` (empty when `hi < lo`): the greedy trial order. -/
def descRange (hi lo : Nat) : List Nat :=
  (List.range (hi + 1 - lo)).map (fun i => hi - i)

/-- Candidate lengths for `[-\s]?`, greedy: take the separator first if present. -/
def sepCands (t : List Char) : List Nat :=
  match t with
  | c :: _ => if sepClass c then [1, 0] else [0]
  | [] => [0]

/-- Core of `account_pattern = \b\d{2,4}[-\s]?\d{3,}[-\s]?\d{2,}\b` after the
leading boundary: enumerate the greedy choices in Python's backtracking order.
The final `\d{2,}\b` can only succeed on the maximal digit run (shortening it
leaves a digit, i.e. a word character, after the match). -/
def accountCore (s : List Char) : Option Nat :=
  (descRange 4 2).findSome? fun a =>
    if maxRun Char.isDigit s < a then none
    else
      let t1 := s.drop a
      (sepCands t1).findSome? fun s1 =>
        let t2 := t1.drop s1
        (descRange (maxRun Char.isDigit t2) 3).findSome? fun b =>
          let t3 := t2.drop b
          (sepCands t3).findSome? fun s2 =>
            let t4 := t3.drop s2
            let c := maxRun Char.isDigit t4
            if 2 ≤ c ∧ !(isWordO (charAt t4 c)) then some (a + s1 + b + s2 + c)
            else none

def accountMatcher (prev : Option Char) (s : List Char) : Option (Nat × List Char) :=
  if wordBoundaryAt prev s then
    (accountCore s).map (fun k => (k, cs "[redacted-account]"))
  else none

/-- `(api[_-]?key|secret|token|password|ssn)\s*[:=]\s*\S+` (case-insensitive,
no `\b`): the name alternation tried left to right, each followed by the tail. -/
def secretsCore (s : List Char) : Option (List Char) :=
  let tail : List Char → Option (List Char) :=
    pSeq (pStar isPySpace)
      (pSeq (pChar (fun c => c == ':' || c == '='))
        (pSeq (pStar isPySpace) (pPlus (fun c => !(isPySpace c)))))
  let apikey : List Char → Option (List Char) :=
    pSeq (pLit (cs "api"))
      (pOptC (pChar (fun c => c == '_' || c == '-')) (pSeq (pLit (cs "key")) tail))
  (apikey s).orElse fun _ =>
    (pSeq (pLit (cs "secret")) tail s).orElse fun _ =>
      (pSeq (pLit (cs "token")) tail s).orElse fun _ =>
        (pSeq (pLit (cs "password")) tail s).orElse fun _ =>
          pSeq (pLit (cs "ssn")) tail s

def secretsMatcher (_prev : Option Char) (s : List Char) : Option (Nat × List Char) :=
  (secretsCore s).map (fun r => (s.length - r.length, cs "[redacted-secret]"))

/-- `SafetyChecker.redact_pii` (safety.py lines 168-175): the four substitutions
applied in source order. -/
def redact_pii (text : List Char) : List Char :=
  if text.isEmpty then []
  else reSub secretsMatcher (reSub accountMatcher (reSub phoneMatcher (reSub emailMatcher text)))

/-! ### Output gate: `mask_output` and its helpers -/

/-- `harmful_keywords` of `_check_harmful_content_in_response` (substring scan,
no word boundaries), in source order. -/
def harmful_keywords : List (List Char) :=
  [cs "jailbreak", cs "system prompt", cs "ignore instructions",
   cs "bypass security", cs "exploit", cs "hack", cs "crack"]

/-- Outcome of `_check_harmful_content_in_response` (safety.py lines 220-240). -/
inductive HarmCheck where
  | harmfulPattern                 -- 'Response contains potentially harmful content'
  | prohibited (kw : List Char)    -- 'Response contains prohibited content: {kw}'
  | respSafe                       -- 'Response appears safe'
deriving DecidableEq

def check_harmful_content_in_response (response : List Char) : HarmCheck :=
  if harmfulMatch response then .harmfulPattern
  else
    match harmful_keywords.find? (fun k => containsSub k (response.map Char.toLower)) with
    | some kw => .prohibited kw
    | none => .respSafe

/-- The distinct reasons `_check_invalid_response_patterns` can report. -/
inductive RespReason where
  | tooShortOrEmpty                -- 'Response too short or empty'
  | onlyNumbers                    -- 'Response contains only numbers'
  | onlySpecialChars               -- 'Response contains only special characters'
  | harmfulResponse                -- harmful-pattern hit
  | prohibitedContent (kw : List Char)
  | validResponse                  -- 'Valid response format'
deriving DecidableEq

structure RespCheck where
  valid : Bool
  reason : RespReason
deriving DecidableEq

/-- `SafetyChecker._check_invalid_response_patterns` (safety.py lines 202-218).
Note that the digits-only and asterisks-only regexes are applied to
`stripped[:100]`, the first 100 characters of the stripped response only. -/
def check_invalid_response_patterns (response : List Char) : RespCheck :=
  if response.isEmpty ∨ (pyStrip response).length < 10 then ⟨false, .tooShortOrEmpty⟩
  else
    let stripped := pyStrip response
    if pyFullMatch numericClass (stripped.take 100) then ⟨false, .onlyNumbers⟩
    else if pyFullMatch starClass (stripped.take 100) then ⟨false, .onlySpecialChars⟩
    else
      match check_harmful_content_in_response stripped with
      | .harmfulPattern => ⟨false, .harmfulResponse⟩
      | .prohibited kw => ⟨false, .prohibitedContent kw⟩
      | .respSafe => ⟨true, .validResponse⟩

inductive MaskAction where
  | block
  | allowMasked
  | allow
deriving DecidableEq

inductive Severity where
  | low
  | medium
  | high
deriving DecidableEq

/-- The dict returned by `mask_output`. -/
structure OutputVerdict where
  action : MaskAction
  text : List Char
  severity : Severity
  reason : Option RespReason
deriving DecidableEq

/-- `SafetyChecker.mask_output` (safety.py lines 177-200). -/
def mask_output (text : List Char) : OutputVerdict :=
  let safe := redact_pii text
  let hasPii := safe ≠ text
  let invalidResponse := check_invalid_response_patterns safe
  if invalidResponse.valid = false then ⟨.block, safe, .high, some invalidResponse.reason⟩
  else if hasPii then ⟨.allowMasked, safe, .medium, none⟩
  else ⟨.allow, safe, .low, none⟩

/-! ### Input sanitizer: `sanitize_user_input` -/

/-- `.*?admin` with `.` not matching a newline, lazy: skip the fewest
non-newline characters until the continuation succeeds. -/
def pLazyUntil (k : List Char → Option (List Char)) : List Char → Option (List Char)
  | [] => k []
  | c :: rest =>
    match k (c :: rest) with
    | some r => some r
    | none => if c == '\n' then none else pLazyUntil k rest

/-- The eight case-insensitive control-phrase regexes of `_strip_control_phrases`
(safety.py lines 147-160), as matchers (none of them uses `\b`, so the
preceding character is ignored).  Each `\s+` is followed by a letter (or the
pattern end), so the maximal space run is the only viable greedy choice. -/
def ctrlCores : List (List Char → Option (List Char)) :=
  let instrTail : List Char → Option (List Char) :=
    fun s => (pLit (cs "instructions") s).orElse (fun _ => pLit (cs "instruction") s)
  [ -- ignore\s+(all\s+)?(previous\s+)?(your\s+)?instructions?
    pSeq (pLit (cs "ignore"))
      (pSeq pSpaces1
        (pOptC (pSeq (pLit (cs "all")) pSpaces1)
          (pOptC (pSeq (pLit (cs "previous")) pSpaces1)
            (pOptC (pSeq (pLit (cs "your")) pSpaces1) instrTail)))),
    -- ignore\s+all\s+previous
    pSeq (pLit (cs "ignore"))
      (pSeq pSpaces1 (pSeq (pLit (cs "all")) (pSeq pSpaces1 (pLit (cs "previous"))))),
    -- forget\s+(everything|all)\s+(I\s+said|previous)
    pSeq (pLit (cs "forget"))
      (pSeq pSpaces1
        (pAltC (pLit (cs "everything")) (pLit (cs "all"))
          (pSeq pSpaces1
            (pAltC (pSeq (pLit (cs "i")) (pSeq pSpaces1 (pLit (cs "said"))))
              (pLit (cs "previous")) some)))),
    -- reveal\s+(system|hidden|your)\s+prompt
    pSeq (pLit (cs "reveal"))
      (pSeq pSpaces1
        (pAltC (pLit (cs "system"))
          (fun s => (pLit (cs "hidden") s).orElse (fun _ => pLit (cs "your") s))
          (pSeq pSpaces1 (pLit (cs "prompt"))))),
    -- from\s+now\s+on\s+obey\s+me
    pSeq (pLit (cs "from"))
      (pSeq pSpaces1
        (pSeq (pLit (cs "now"))
          (pSeq pSpaces1
            (pSeq (pLit (cs "on"))
              (pSeq pSpaces1
                (pSeq (pLit (cs "obey")) (pSeq pSpaces1 (pLit (cs "me"))))))))),
    -- developer\s+mode
    pSeq (pLit (cs "developer")) (pSeq pSpaces1 (pLit (cs "mode"))),
    -- jailbreak
    pLit (cs "jailbreak"),
    -- act\s+as\s+.*?admin
    pSeq (pLit (cs "act"))
      (pSeq pSpaces1
        (pSeq (pLit (cs "as")) (pSeq pSpaces1 (pLazyUntil (pLit (cs "admin")))))) ]

/-- The control-phrase matchers paired with their fixed replacement. -/
def ctrl_matchers : List (Option Char → List Char → Option (Nat × List Char)) :=
  ctrlCores.map (fun core _prev s =>
    (core s).map (fun r => (s.length - r.length, cs "[blocked-control]")))

/-- `SafetyChecker._strip_control_phrases`: the eight substitutions in order. -/
def strip_control_phrases (text : List Char) : List Char :=
  ctrl_matchers.foldl (fun acc m => reSub m acc) text

/-- Scan for the earliest closing ```` ``` ````; returns the enclosed group and
the suffix after the closing fence (the `(.*?)` group is lazy and `re.DOTALL`
lets it span newlines). -/
def fenceFind (acc : List Char) : List Char → Option (List Char × List Char)
  | [] => none
  | c :: rest =>
    if (cs "```").isPrefixOf (c :: rest) then some (acc.reverse, (c :: rest).drop 3)
    else fenceFind (c :: acc) rest

/-- The fenced-code-block pattern of `_literalize_code_blocks`, with the
replacement built from the stripped group as in the `wrap` closure. -/
def fence_matcher (_prev : Option Char) (s : List Char) : Option (Nat × List Char) :=
  if (cs "```").isPrefixOf s then
    match fenceFind [] (s.drop 3) with
    | some (g, rest) =>
        some (s.length - rest.length,
          cs "<USER_CODE>\n" ++ pyStrip g ++ cs "\n</USER_CODE>")
    | none => none
  else none

/-- `SafetyChecker._literalize_code_blocks` (safety.py lines 162-166). -/
def literalize_code_blocks (text : List Char) : List Char :=
  reSub fence_matcher text

/-- `SafetyChecker.sanitize_user_input` (safety.py lines 140-145). -/
def sanitize_user_input (text : List Char) : List Char :=
  if text.isEmpty then []
  else pyStrip (literalize_code_blocks (strip_control_phrases text))

/-! ### Provider layer (`run_query.py`)

The network clients are external capabilities: a provider call is modelled by
the raw text the backend returned (and, for OpenRouter, its optional usage
counts), from which `_call_gemini` / `_call_openrouter` build their result
dicts.  At the pipeline level a whole `_call_ai_provider` outcome is an
environment input (`primary_result` / `fallback_result`), since the dispatch
and exception wrapper only normalise client failures into `success = False`
dicts. -/

inductive ProviderName where
  | openrouter
  | gemini
  | openai
deriving DecidableEq

/-- The part of a provider dict relevant to the pipeline (`client` is the
external capability). -/
structure ProviderInfo where
  name : ProviderName
  model : List Char
deriving DecidableEq

/-- The result dict of `_call_openai` / `_call_gemini` / `_call_openrouter` /
`_call_ai_provider`.  On failure `content` is empty and the token counts 0. -/
structure GenResult where
  success : Bool
  content : List Char
  tokens_prompt : Nat
  tokens_completion : Nat
  error : List Char
deriving DecidableEq

/-- `max(1, n // 3.5)`: the character-count token estimate of `_call_gemini`
and `_call_openrouter`.  Python's `//` on a float operand is `floor`, and
`floor (n / 3.5) = floor (2n / 7) = 2 * n / 7` in `Nat`. -/
def estimate_tokens (n : Nat) : Nat := max 1 (2 * n / 7)

/-- The code-fence cleanup both `_call_gemini` (lines 299-306) and
`_call_openrouter` (lines 329-336) apply to the stripped backend text. -/
def stripFences (raw : List Char) : List Char :=
  let c0 := pyStrip raw
  let c1 := if (cs "```json").isPrefixOf c0 then c0.drop 7 else c0
  let c2 := if (cs "```").isPrefixOf c1 then c1.drop 3 else c1
  let c3 := if (cs "```").isSuffixOf c2 then c2.take (c2.length - 3) else c2
  pyStrip c3

/-- `TextUtility._call_gemini` (run_query.py lines 290-316) on the text the
backend returned: Gemini reports no usage, so both token counts are always
character estimates. -/
def call_gemini (rawText formattedPrompt : List Char) : GenResult :=
  let content := stripFences rawText
  { success := true
    content := content
    tokens_prompt := estimate_tokens formattedPrompt.length
    tokens_completion := estimate_tokens content.length
    error := [] }

/-- `TextUtility._call_openrouter` (run_query.py lines 318-347): exact usage
counts when the backend reports them, character estimates otherwise. -/
def call_openrouter (rawText : List Char) (usage : Option (Nat × Nat))
    (formattedPrompt : List Char) : GenResult :=
  let content := stripFences rawText
  { success := true
    content := content
    tokens_prompt := match usage with
      | some (p, _) => p
      | none => estimate_tokens formattedPrompt.length
    tokens_completion := match usage with
      | some (_, c) => c
      | none => estimate_tokens content.length
    error := [] }

/-- `TextUtility._calculate_cost` (run_query.py lines 156-176): every provider
(and the default for unknown ones) carries the same per-million rate pair. -/
def pricing (provider : ProviderName) : ℚ × ℚ :=
  match provider with
  | .openai => (1.25 / 1000000, 10.00 / 1000000)
  | .gemini => (1.25 / 1000000, 10.00 / 1000000)
  | .openrouter => (1.25 / 1000000, 10.00 / 1000000)

def calculate_cost (provider : ProviderName) (prompt_tokens completion_tokens : Nat) : ℚ :=
  let p := pricing provider
  (prompt_tokens : ℚ) * p.1 + (completion_tokens : ℚ) * p.2

/-- One row of `metrics/metrics.csv` as written by `_log_metrics`
(run_query.py lines 178-208).  The float roundings applied when serialising
(`round(latency_ms, 2)`, `round(cost, 6)`) are presentation of the stored
values and are not modelled. -/
structure MetricsRecord where
  timestamp : Nat
  question : List Char
  provider : ProviderName
  model : List Char
  tokens_prompt : Nat
  tokens_completion : Nat
  total_tokens : Nat
  latency_ms : ℚ
  estimated_cost_usd : ℚ
  safety_check_passed : Bool
  question_hash : List Char
  output_hash : List Char
deriving DecidableEq

/-- `TextUtility._log_metrics` with the safety checker present:
`hash_content x = sha256(redact_pii x)` with `sha256` an injected environment
capability, and the question column is `redact_pii(question[:100])`. -/
def log_metrics (sha256 : List Char → List Char) (now : Nat) (question : List Char)
    (provider : ProviderName) (prompt_tokens completion_tokens : Nat) (latency_ms : ℚ)
    (safety_passed : Bool) (model : List Char) (output_text : List Char) : MetricsRecord :=
  { timestamp := now
    question := redact_pii (question.take 100)
    provider := provider
    model := model
    tokens_prompt := prompt_tokens
    tokens_completion := completion_tokens
    total_tokens := prompt_tokens + completion_tokens
    latency_ms := latency_ms
    estimated_cost_usd := calculate_cost provider prompt_tokens completion_tokens
    safety_check_passed := safety_passed
    question_hash := sha256 (redact_pii question)
    output_hash := if output_text.isEmpty then [] else sha256 (redact_pii output_text) }

/-- The five fields `process_query` reads from a successfully parsed JSON
response (`json.loads` itself is an external library; a parse failure is
`none`). -/
structure ParsedResponse where
  answer : List Char
  confidence : ℚ
  actions : List (List Char)
  category : List Char
  follow_up : Option (List Char)
deriving DecidableEq

/-- The `safety_warning` values `process_query` can set. -/
inductive SafetyWarning where
  | inputRejected (r : SafetyReason)       -- safety_result['reason']
  | invalidResponse (r : Option RespReason) -- 'Invalid response detected: ...'
deriving DecidableEq

/-- The caller-facing dict of `process_query`, with its `metrics` sub-dict
flattened into `m_`-prefixed fields.  `m_provider` / `m_model` are `none` on
the paths whose metrics dict carries no such keys. -/
structure PipelineResult where
  answer : List Char
  confidence : ℚ
  actions : List (List Char)
  category : List Char
  follow_up : Option (List Char)
  safety_warning : Option SafetyWarning
  error : Option (List Char)
  m_tokens_prompt : Nat
  m_tokens_completion : Nat
  m_total_tokens : Nat
  m_latency_ms : ℚ
  m_estimated_cost_usd : ℚ
  m_provider : Option ProviderName
  m_model : Option (List Char)
deriving DecidableEq

/-- The per-call environment of `process_query`: the configured current
provider, what `_try_fallback_provider` would return, the outcome of each of
the at most two `_call_ai_provider` invocations, the JSON parser, the hash
capability, the clock and the measured latencies, and the prompt template
formatting (`self.prompt_template.format(question=...)`). -/
structure PipelineEnv where
  current_provider : Option ProviderInfo
  fallback_provider : Option ProviderInfo
  primary_result : GenResult
  fallback_result : GenResult
  parse_json : List Char → Option ParsedResponse
  sha256 : List Char → List Char
  now : Nat
  latency1 : ℚ
  latency2 : ℚ
  format_prompt : List Char → List Char

/-- The provider-attempt step of `process_query` (run_query.py lines 394-406):
the primary `_call_ai_provider` result; on failure, one fallback attempt when
`_try_fallback_provider` finds a configured provider.  Returns the effective
api result, the provider whose result it is, the list of providers invoked,
and the latency of the last attempt. -/
def effective_call (env : PipelineEnv) (prov : ProviderInfo) :
    GenResult × ProviderInfo × List ProviderInfo × ℚ :=
  if env.primary_result.success then (env.primary_result, prov, [prov], env.latency1)
  else
    match env.fallback_provider with
    | some fb => (env.fallback_result, fb, [prov, fb], env.latency2)
    | none => (env.primary_result, prov, [prov], env.latency1)

/-- The default payload substituted on `json.JSONDecodeError`
(run_query.py lines 462-468). -/
def parseErrorPayload : ParsedResponse :=
  { answer := cs "Error parsing response"
    confidence := 0
    actions := [cs "Please try again"]
    category := cs "other"
    follow_up := none }

/-- `TextUtility.process_query` (run_query.py lines 349-493), with the safety
checker present.  Returns the caller-facing result, the metrics records
appended during the call, and the providers invoked via `_call_ai_provider`. -/
def process_query (env : PipelineEnv) (question : List Char) :
    PipelineResult × List MetricsRecord × List ProviderInfo :=
  let safety_result := check_safety (.pystr question)
  if safety_result.safe = false then
    ({ answer := cs "I cannot process this request"
       confidence := 1
       actions := [cs "Please rephrase your question"]
       category := cs "other"
       follow_up := none
       safety_warning := some (.inputRejected safety_result.reason)
       error := none
       m_tokens_prompt := 0, m_tokens_completion := 0, m_total_tokens := 0
       m_latency_ms := 0, m_estimated_cost_usd := 0
       m_provider := none, m_model := none }, [], [])
  else
    match env.current_provider with
    | none =>
      ({ answer := cs "No AI provider available. Please configure API keys."
         confidence := 0
         actions := [cs "Check your API key configuration"]
         category := cs "other"
         follow_up := none
         safety_warning := none
         error := some (cs "No AI provider available")
         m_tokens_prompt := 0, m_tokens_completion := 0, m_total_tokens := 0
         m_latency_ms := 0, m_estimated_cost_usd := 0
         m_provider := none, m_model := none }, [], [])
    | some prov =>
      -- the prompt actually sent (run_query.py lines 388-392); the provider
      -- call outcome itself is an environment input, so the prompt only
      -- documents the data flow here
      let _formatted_prompt := env.format_prompt (sanitize_user_input question)
      let step := effective_call env prov
      let api_result := step.1
      let provider_used := step.2.1
      let calls := step.2.2.1
      let latency_ms := step.2.2.2
      if api_result.success = false then
        ({ answer := cs "Error processing request: " ++ api_result.error
           confidence := 0
           actions := [cs "Please try again later"]
           category := cs "other"
           follow_up := none
           safety_warning := none
           error := some api_result.error
           m_tokens_prompt := 0, m_tokens_completion := 0, m_total_tokens := 0
           m_latency_ms := latency_ms, m_estimated_cost_usd := 0
           m_provider := none, m_model := none }, [], calls)
      else
        let output_content := api_result.content
        let mask_result := mask_output output_content
        if mask_result.action = MaskAction.block then
          let blockedRecord := log_metrics env.sha256 env.now question provider_used.name
            api_result.tokens_prompt api_result.tokens_completion latency_ms false
            provider_used.model output_content
          ({ answer := cs "I cannot process this request"
             confidence := 1
             actions := [cs "Please try again"]
             category := cs "other"
             follow_up := none
             safety_warning := some (.invalidResponse mask_result.reason)
             error := none
             m_tokens_prompt := api_result.tokens_prompt
             m_tokens_completion := api_result.tokens_completion
             m_total_tokens := api_result.tokens_prompt + api_result.tokens_completion
             m_latency_ms := latency_ms
             m_estimated_cost_usd := calculate_cost provider_used.name
               api_result.tokens_prompt api_result.tokens_completion
             m_provider := some provider_used.name
             m_model := some provider_used.model }, [blockedRecord], calls)
        else
          let output_content2 :=
            if mask_result.action = MaskAction.allowMasked then mask_result.text
            else output_content
          let parsed := (env.parse_json output_content2).getD parseErrorPayload
          let safety_passed := (check_invalid_response_patterns output_content2).valid
          let deliveredRecord := log_metrics env.sha256 env.now question provider_used.name
            api_result.tokens_prompt api_result.tokens_completion latency_ms safety_passed
            provider_used.model output_content2
          ({ answer := parsed.answer
             confidence := parsed.confidence
             actions := parsed.actions
             category := parsed.category
             follow_up := parsed.follow_up
             safety_warning := none
             error := none
             m_tokens_prompt := api_result.tokens_prompt
             m_tokens_completion := api_result.tokens_completion
             m_total_tokens := api_result.tokens_prompt + api_result.tokens_completion
             m_latency_ms := latency_ms
             m_estimated_cost_usd := calculate_cost provider_used.name
               api_result.tokens_prompt api_result.tokens_completion
             m_provider := some provider_used.name
             m_model := some provider_used.model }, [deliveredRecord], calls)

/-- Caller-facing result of a `process_query` run. -/
def pqResult (env : PipelineEnv) (q : List Char) : PipelineResult :=
  (process_query env q).1

/-- Metrics records appended during a `process_query` run. -/
def pqRecords (env : PipelineEnv) (q : List Char) : List MetricsRecord :=
  (process_query env q).2.1

/-- Providers invoked via `_call_ai_provider` during a `process_query` run. -/
def pqCalls (env : PipelineEnv) (q : List Char) : List ProviderInfo :=
  (process_query env q).2.2

/-! ## Theorems for the claims -/

/-- C10: for every input that is `None`, empty, or not a string, `check_safety`
returns (without raising — the embedding is a total function) the verdict
`safe = false`, reason 'Empty or invalid input', confidence 1.0. -/
theorem check_safety_invalid_input (v : PyValue)
    (h : v = .pynone ∨ v = .pystr [] ∨ ∃ b, v = .pyother b) :
    check_safety v = ⟨false, .emptyOrInvalid, 1⟩ := by
  rcases h with h | h | ⟨b, h⟩
  · subst h; rfl
  · subst h; rfl
  · subst h; cases b <;> rfl

theorem check_safety_invalid_input_witness :
    (PyValue.pynone = PyValue.pynone ∨ PyValue.pynone = PyValue.pystr [] ∨
      ∃ b, PyValue.pynone = PyValue.pyother b) ∧
    check_safety PyValue.pynone = ⟨false, .emptyOrInvalid, 1⟩ :=
  ⟨Or.inl rfl, check_safety_invalid_input PyValue.pynone (Or.inl rfl)⟩

/-- C9: for every input text and every action of the output gate, the `text`
field of the verdict returned by `mask_output` is `redact_pii` of the input;
the verdict never carries the raw backend output. -/
theorem mask_output_text_is_redacted (text : List Char) :
    (mask_output text).text = redact_pii text := by
  unfold mask_output
  dsimp only
  split
  · rfl
  · split <;> rfl

/-- C5 (code bug): PII redaction is not idempotent.  On `"123456789token=x"`
the secrets substitution of the first pass replaces `token=x` and thereby puts
a word boundary after the digit run, so a second pass finds a phone match that
the first pass could not see. -/
theorem redact_pii_not_idempotent_at_input :
    redact_pii (cs "123456789token=x") = cs "123456789[redacted-secret]" ∧
    redact_pii (redact_pii (cs "123456789token=x"))
      = cs "[redacted-phone][redacted-secret]" ∧
    redact_pii (redact_pii (cs "123456789token=x")) ≠ redact_pii (cs "123456789token=x") :=
  ⟨by decide, by decide, by decide⟩

/-- The estimate exactly as the specification words it:
`max(1, ceil(characterLength / 3.5))`, i.e. `max 1 ⌈2n/7⌉`.  Stated for
comparison with the source's `estimate_tokens`. -/
def ceil_estimate (n : Nat) : Nat := max 1 ((2 * n + 6) / 7)

/-- C2 counterexample: for a formatted prompt of 8 characters the code reports
`max(1, 8 // 3.5) = 2` tokens, while the claimed `max(1, ceil(8 / 3.5))` is 3. -/
theorem token_estimate_not_ceil_counterexample :
    (call_gemini (cs "abcdefgh") (cs "abcdefgh")).tokens_prompt = 2 ∧
    ceil_estimate (cs "abcdefgh").length = 3 ∧
    (call_gemini (cs "abcdefgh") (cs "abcdefgh")).tokens_prompt
      ≠ ceil_estimate (cs "abcdefgh").length :=
  ⟨by decide, by decide, by decide⟩

/-- C2 (amended): on the estimating paths (Gemini always, OpenRouter without
usage) both token counts equal `max(1, floor(characterLength / 3.5))` — the
floor, not the ceiling, of the character ratio — and are therefore ≥ 1. -/
theorem token_estimate_floor (rawText formattedPrompt : List Char) :
    (call_gemini rawText formattedPrompt).tokens_prompt
        = max 1 (2 * formattedPrompt.length / 7) ∧
    (call_gemini rawText formattedPrompt).tokens_completion
        = max 1 (2 * (stripFences rawText).length / 7) ∧
    (call_openrouter rawText none formattedPrompt).tokens_prompt
        = max 1 (2 * formattedPrompt.length / 7) ∧
    (call_openrouter rawText none formattedPrompt).tokens_completion
        = max 1 (2 * (stripFences rawText).length / 7) ∧
    1 ≤ (call_gemini rawText formattedPrompt).tokens_prompt ∧
    1 ≤ (call_gemini rawText formattedPrompt).tokens_completion ∧
    1 ≤ (call_openrouter rawText none formattedPrompt).tokens_prompt ∧
    1 ≤ (call_openrouter rawText none formattedPrompt).tokens_completion := by
  refine ⟨rfl, rfl, rfl, rfl, ?_, ?_, ?_, ?_⟩ <;> exact le_max_left 1 _

/-- The block condition exactly as claim C4 words it, for comparison with the
code: redacted text shorter than 10, or entirely digits/punctuation, or
entirely asterisks, or matching the harmful scan. -/
def specC4BlockCond (redacted : List Char) : Prop :=
  redacted.length < 10 ∨ pyFullMatch numericClass redacted = true ∨
  pyFullMatch starClass redacted = true ∨
  check_harmful_content_in_response redacted ≠ .respSafe

/-- C4 counterexample: `"  hi there  "` has 12 characters, is not all
digits/punctuation or asterisks, and trips no harmful scan — yet the gate
blocks it, because the length check is applied to the stripped text
(`"hi there"`, 8 characters). -/
theorem output_block_counterexample :
    (mask_output (cs "  hi there  ")).action = MaskAction.block ∧
    redact_pii (cs "  hi there  ") = cs "  hi there  " ∧
    ¬ specC4BlockCond (redact_pii (cs "  hi there  ")) := by
  refine ⟨by decide, by decide, ?_⟩
  unfold specC4BlockCond
  decide

/-- The validity outcome of `_check_invalid_response_patterns` as a
disjunction of its four rejection conditions, all evaluated on the stripped
text (the digit/asterisk regexes on its first 100 characters only). -/
theorem resp_invalid_iff (r : List Char) :
    (check_invalid_response_patterns r).valid = false ↔
      ((pyStrip r).length < 10 ∨
       pyFullMatch numericClass ((pyStrip r).take 100) = true ∨
       pyFullMatch starClass ((pyStrip r).take 100) = true ∨
       check_harmful_content_in_response (pyStrip r) ≠ .respSafe) := by
  unfold check_invalid_response_patterns
  by_cases h0 : r.isEmpty ∨ (pyStrip r).length < 10
  · rw [if_pos h0]
    have hlen : (pyStrip r).length < 10 := by
      rcases h0 with h0 | h0
      · have : r = [] := by simpa [List.isEmpty_iff] using h0
        subst this
        decide
      · exact h0
    simp [hlen]
  · rw [if_neg h0]
    push_neg at h0
    have hlen : ¬ (pyStrip r).length < 10 := by omega
    by_cases h1 : pyFullMatch numericClass ((pyStrip r).take 100) = true
    · simp [h1]
    · rw [if_neg h1]
      by_cases h2 : pyFullMatch starClass ((pyStrip r).take 100) = true
      · simp [h1, h2]
      · rw [if_neg h2]
        cases hc : check_harmful_content_in_response (pyStrip r) <;>
          simp [hlen, h1, h2, hc]

/-- C4 (amended): the output gate blocks exactly when the *stripped* redacted
text is shorter than 10 characters, or its first 100 characters are entirely
digits/whitespace/hyphens/periods or entirely asterisks, or the stripped text
matches the harmful-content/harmful-keyword scan.  (The claim's reading —
conditions on the unstripped text as a whole — fails on the counterexample.) -/
theorem output_block_characterisation (t : List Char) :
    (mask_output t).action = MaskAction.block ↔
      ((pyStrip (redact_pii t)).length < 10 ∨
       pyFullMatch numericClass ((pyStrip (redact_pii t)).take 100) = true ∨
       pyFullMatch starClass ((pyStrip (redact_pii t)).take 100) = true ∨
       check_harmful_content_in_response (pyStrip (redact_pii t)) ≠ .respSafe) := by
  rw [← resp_invalid_iff (redact_pii t)]
  unfold mask_output
  dsimp only
  by_cases hv : (check_invalid_response_patterns (redact_pii t)).valid = false
  · rw [if_pos hv]
    exact iff_of_true rfl hv
  · rw [if_neg hv]
    refine iff_of_false ?_ hv
    split <;> simp

/-- C6: for every question that passes the length, structural, and
harmful-pattern checks, the injection score equals the capped weighted sum
`min(min(0.2·k, 0.6) + min(0.25·i, 0.4) + min(0.4·a, 0.5), 1.0)` of the three
hit counts, lies in `[0, 1]`, and `check_safety` reports unsafe with
confidence equal to the score exactly when the score exceeds 0.5, otherwise
safe with confidence 0.9. -/
theorem injection_score_formula_and_threshold (q : List Char)
    (h1 : 3 ≤ (pyStrip q).length) (h2 : (pyStrip q).length ≤ 2000)
    (h3 : (check_invalid_patterns (pyStrip q)).valid = true)
    (h4 : harmfulMatch (pyStrip q) = false) :
    calculate_injection_score (pyStrip q) =
      min (min ((countHits injection_keywords ((pyStrip q).map Char.toLower) : ℚ) * 0.2) 0.6
        + min ((countHits instruction_phrases ((pyStrip q).map Char.toLower) : ℚ) * 0.25) 0.4
        + min ((countHits adversarial_patterns ((pyStrip q).map Char.toLower) : ℚ) * 0.4) 0.5) 1 ∧
    0 ≤ calculate_injection_score (pyStrip q) ∧
    calculate_injection_score (pyStrip q) ≤ 1 ∧
    (0.5 < calculate_injection_score (pyStrip q) →
      check_safety (.pystr q) =
        ⟨false, .injectionRisk (calculate_injection_score (pyStrip q)),
          calculate_injection_score (pyStrip q)⟩) ∧
    (calculate_injection_score (pyStrip q) ≤ 0.5 →
      check_safety (.pystr q) = ⟨true, .inputSafe, 0.9⟩) := by
  have hq : q.isEmpty = false := by
    cases q with
    | nil => exact absurd h1 (by decide)
    | cons c rest => rfl
  have hform : calculate_injection_score (pyStrip q) =
      min (min ((countHits injection_keywords ((pyStrip q).map Char.toLower) : ℚ) * 0.2) 0.6
        + min ((countHits instruction_phrases ((pyStrip q).map Char.toLower) : ℚ) * 0.25) 0.4
        + min ((countHits adversarial_patterns ((pyStrip q).map Char.toLower) : ℚ) * 0.4) 0.5) 1 := by
    simp only [calculate_injection_score, ratMin_eq_min]
  have hnn : (0 : ℚ) ≤ calculate_injection_score (pyStrip q) := by
    rw [hform]
    have t1 : (0 : ℚ) ≤ min ((countHits injection_keywords ((pyStrip q).map Char.toLower) : ℚ) * 0.2) 0.6 :=
      le_min (by positivity) (by norm_num)
    have t2 : (0 : ℚ) ≤ min ((countHits instruction_phrases ((pyStrip q).map Char.toLower) : ℚ) * 0.25) 0.4 :=
      le_min (by positivity) (by norm_num)
    have t3 : (0 : ℚ) ≤ min ((countHits adversarial_patterns ((pyStrip q).map Char.toLower) : ℚ) * 0.4) 0.5 :=
      le_min (by positivity) (by norm_num)
    exact le_min (by linarith) (by norm_num)
  have hub : calculate_injection_score (pyStrip q) ≤ 1 := by
    rw [hform]; exact min_le_right _ _
  have hrun : check_safety (.pystr q) =
      (if 0.5 < calculate_injection_score (pyStrip q) then
        (⟨false, .injectionRisk (calculate_injection_score (pyStrip q)),
          calculate_injection_score (pyStrip q)⟩ : Verdict)
      else ⟨true, .inputSafe, 0.9⟩) := by
    unfold check_safety
    rw [if_neg (by simp [pyFalsy, pyIsStr, hq])]
    unfold check_safety_str
    dsimp only [pyGetStr]
    rw [if_neg (by omega), if_neg (by omega), if_neg (by simp [h3]), if_neg (by simp [h4])]
  refine ⟨hform, hnn, hub, ?_, ?_⟩
  · intro h5
    rw [hrun, if_pos h5]
  · intro h5
    rw [hrun, if_neg (by exact not_lt.mpr h5)]

theorem injection_score_formula_and_threshold_witness :
    (3 ≤ (pyStrip (cs "What are your business hours?")).length) ∧
    (check_invalid_patterns (pyStrip (cs "What are your business hours?"))).valid = true ∧
    check_safety (.pystr (cs "What are your business hours?")) = ⟨true, .inputSafe, 0.9⟩ := by
  refine ⟨by decide, by decide, ?_⟩
  have h := injection_score_formula_and_threshold (cs "What are your business hours?")
    (by decide) (by decide) (by decide) (by decide)
  refine h.2.2.2.2 ?_
  have hk : countHits injection_keywords
      ((pyStrip (cs "What are your business hours?")).map Char.toLower) = 0 := by decide
  have hi : countHits instruction_phrases
      ((pyStrip (cs "What are your business hours?")).map Char.toLower) = 0 := by decide
  have ha : countHits adversarial_patterns
      ((pyStrip (cs "What are your business hours?")).map Char.toLower) = 0 := by decide
  rw [h.1, hk, hi, ha]
  norm_num

/-- A substitution scan with no match anywhere leaves the text unchanged
(given enough fuel, which `reSub` always supplies). -/
theorem reSubFuel_of_no_match (m : Option Char → List Char → Option (Nat × List Char))
    (fuel : Nat) (prev : Option Char) (s : List Char)
    (hf : s.length ≤ fuel) (h : hasMatch m prev s = false) :
    reSubFuel m fuel prev s = s := by
  induction fuel generalizing prev s with
  | zero => rfl
  | succ n ih =>
    cases s with
    | nil => rfl
    | cons c rest =>
      cases hm : m prev (c :: rest) with
      | none =>
        simp only [reSubFuel, hm]
        have hr : hasMatch m (some c) rest = false := by
          simpa [hasMatch, hm] using h
        have hl : rest.length ≤ n := by
          simpa using hf
        rw [ih (some c) rest hl hr]
      | some val =>
        exfalso
        simp [hasMatch, hm] at h

theorem reSub_of_no_match (m : Option Char → List Char → Option (Nat × List Char))
    (s : List Char) (h : hasMatch m none s = false) : reSub m s = s :=
  reSubFuel_of_no_match m s.length none s le_rfl h

/-- A text in which none of the control-phrase patterns matches passes
`_strip_control_phrases` unchanged. -/
theorem strip_control_phrases_of_clean (t : List Char)
    (h : ∀ m ∈ ctrl_matchers, hasMatch m none t = false) :
    strip_control_phrases t = t := by
  unfold strip_control_phrases
  have main : ∀ L : List (Option Char → List Char → Option (Nat × List Char)),
      (∀ m ∈ L, hasMatch m none t = false) →
      L.foldl (fun acc m => reSub m acc) t = t := by
    intro L
    induction L with
    | nil => intro _; rfl
    | cons m L ih =>
      intro hL
      simp only [List.foldl_cons]
      rw [reSub_of_no_match m t (hL m (List.mem_cons_self m L))]
      exact ih (fun m' hm' => hL m' (List.mem_cons_of_mem m hm'))
  exact main ctrl_matchers h

/-- C7 counterexample: `"hello "` contains no control phrase and no code
fence, yet `sanitize_user_input` changes it — the final `strip()` removes the
trailing space. -/
theorem sanitize_clean_not_identity_counterexample :
    (∀ m ∈ ctrl_matchers, hasMatch m none (cs "hello ") = false) ∧
    hasMatch fence_matcher none (cs "hello ") = false ∧
    sanitize_user_input (cs "hello ") ≠ cs "hello " := by
  refine ⟨?_, by decide, by decide⟩
  decide

/-- C7 (amended): sanitizing is the identity on clean text that additionally
carries no leading or trailing whitespace (the final `strip()` of
`sanitize_user_input` removes edge whitespace even from clean text). -/
theorem sanitize_clean_stripped_identity (t : List Char)
    (hctrl : ∀ m ∈ ctrl_matchers, hasMatch m none t = false)
    (hfence : hasMatch fence_matcher none t = false)
    (hstrip : pyStrip t = t) :
    sanitize_user_input t = t := by
  unfold sanitize_user_input
  by_cases ht : t.isEmpty
  · rw [if_pos ht]
    have : t = [] := by simpa [List.isEmpty_iff] using ht
    rw [this]
  · rw [if_neg ht]
    rw [strip_control_phrases_of_clean t hctrl]
    unfold literalize_code_blocks
    rw [reSub_of_no_match fence_matcher t hfence, hstrip]

theorem sanitize_clean_stripped_identity_witness :
    pyStrip (cs "hello there") = cs "hello there" ∧
    sanitize_user_input (cs "hello there") = cs "hello there" :=
  ⟨by decide,
    sanitize_clean_stripped_identity (cs "hello there") (by decide) (by decide) (by decide)⟩

/-! ### Concrete data for pipeline runs -/

def sampleQuestion : List Char := cs "What are your business hours?"

def sampleProvider : ProviderInfo := ⟨.gemini, cs "gemini-2.5-flash"⟩

def fallbackSample : ProviderInfo := ⟨.openrouter, cs "openai/gpt-3.5-turbo"⟩

def okResult (content : List Char) : GenResult :=
  ⟨true, content, 3, 4, []⟩

def failResult (err : List Char) : GenResult :=
  ⟨false, [], 0, 0, err⟩

/-- A concrete environment with trivial external capabilities. -/
def mkEnv (cur fb : Option ProviderInfo) (r1 r2 : GenResult) : PipelineEnv :=
  { current_provider := cur
    fallback_provider := fb
    primary_result := r1
    fallback_result := r2
    parse_json := fun _ => none
    sha256 := fun _ => []
    now := 0
    latency1 := 1
    latency2 := 2
    format_prompt := fun s => s }

/-- `check_safety` accepts the sample question (evaluated by hand because the
score comparison involves irreducible rational arithmetic). -/
theorem check_safety_sample :
    check_safety (.pystr sampleQuestion) = ⟨true, .inputSafe, 0.9⟩ := by
  unfold check_safety
  rw [if_neg (by decide)]
  unfold check_safety_str
  dsimp only [pyGetStr]
  rw [if_neg (by decide), if_neg (by decide), if_neg (by decide), if_neg (by decide),
    if_neg ?hscore]
  case hscore =>
    have hk : countHits injection_keywords ((pyStrip sampleQuestion).map Char.toLower) = 0 := by
      decide
    have hi : countHits instruction_phrases ((pyStrip sampleQuestion).map Char.toLower) = 0 := by
      decide
    have ha : countHits adversarial_patterns ((pyStrip sampleQuestion).map Char.toLower) = 0 := by
      decide
    simp only [calculate_injection_score, hk, hi, ha]
    norm_num [ratMin]

/-! ### Branch behaviour of `process_query` -/

theorem run_rejected (env : PipelineEnv) (q : List Char)
    (hs : (check_safety (.pystr q)).safe = false) :
    pqRecords env q = [] ∧ pqCalls env q = [] := by
  unfold pqRecords pqCalls process_query
  dsimp only
  rw [if_pos hs]
  exact ⟨rfl, rfl⟩

theorem run_no_provider (env : PipelineEnv) (q : List Char)
    (hs : (check_safety (.pystr q)).safe = true)
    (hc : env.current_provider = none) :
    pqRecords env q = [] ∧ pqCalls env q = [] := by
  unfold pqRecords pqCalls process_query
  dsimp only
  rw [if_neg (by simp [hs]), hc]
  exact ⟨rfl, rfl⟩

theorem run_api_failed (env : PipelineEnv) (q : List Char) (prov : ProviderInfo)
    (hs : (check_safety (.pystr q)).safe = true)
    (hc : env.current_provider = some prov)
    (hf : (effective_call env prov).1.success = false) :
    pqRecords env q = [] ∧
    pqCalls env q = (effective_call env prov).2.2.1 ∧
    (pqResult env q).error = some (effective_call env prov).1.error ∧
    (pqResult env q).answer = cs "Error processing request: " ++ (effective_call env prov).1.error := by
  unfold pqRecords pqCalls pqResult process_query
  dsimp only
  rw [if_neg (by simp [hs]), hc]
  dsimp only
  rw [if_pos hf]
  exact ⟨rfl, rfl, rfl, rfl⟩

theorem run_blocked (env : PipelineEnv) (q : List Char) (prov : ProviderInfo)
    (hs : (check_safety (.pystr q)).safe = true)
    (hc : env.current_provider = some prov)
    (hsucc : (effective_call env prov).1.success = true)
    (hb : (mask_output (effective_call env prov).1.content).action = MaskAction.block) :
    (pqResult env q).answer = cs "I cannot process this request" ∧
    (pqResult env q).safety_warning
      = some (.invalidResponse (mask_output (effective_call env prov).1.content).reason) ∧
    pqCalls env q = (effective_call env prov).2.2.1 ∧
    (∃ r, pqRecords env q = [r] ∧ r.safety_check_passed = false) := by
  unfold pqRecords pqCalls pqResult process_query
  dsimp only
  rw [if_neg (by simp [hs]), hc]
  dsimp only
  rw [if_neg (by simp [hsucc]), if_pos hb]
  exact ⟨rfl, rfl, rfl, ⟨_, rfl, rfl⟩⟩

theorem run_delivered (env : PipelineEnv) (q : List Char) (prov : ProviderInfo)
    (hs : (check_safety (.pystr q)).safe = true)
    (hc : env.current_provider = some prov)
    (hsucc : (effective_call env prov).1.success = true)
    (hb : (mask_output (effective_call env prov).1.content).action ≠ MaskAction.block) :
    (pqRecords env q).length = 1 ∧
    pqCalls env q = (effective_call env prov).2.2.1 := by
  unfold pqRecords pqCalls process_query
  dsimp only
  rw [if_neg (by simp [hs]), hc]
  dsimp only
  rw [if_neg (by simp [hsucc]), if_neg hb]
  exact ⟨rfl, rfl⟩

theorem effective_call_calls_le_two (env : PipelineEnv) (prov : ProviderInfo) :
    (effective_call env prov).2.2.1.length ≤ 2 := by
  unfold effective_call
  split
  · simp
  · cases env.fallback_provider <;> simp

theorem effective_call_both_fail (env : PipelineEnv) (prov fb : ProviderInfo)
    (h1 : env.primary_result.success = false)
    (h2 : env.fallback_provider = some fb) :
    effective_call env prov = (env.fallback_result, fb, [prov, fb], env.latency2) := by
  unfold effective_call
  rw [if_neg (by simp [h1]), h2]

/-! ### C1, C3 and C8 -/

/-- C1 (amended): every call produces exactly one `PipelineResult` (the
function is total), but a metrics record is appended only when an output
reaches the output gate: the `Blocked` and `Delivered` terminal states append
exactly one record, while a rejected input, a missing provider, and the
`AllProvidersFailed` terminal state append none. -/
theorem metrics_record_per_terminal_state (env : PipelineEnv) (q : List Char) :
    (pqRecords env q).length ≤ 1 ∧
    ((check_safety (.pystr q)).safe = false → pqRecords env q = []) ∧
    ((check_safety (.pystr q)).safe = true → env.current_provider = none →
      pqRecords env q = []) ∧
    (∀ prov, (check_safety (.pystr q)).safe = true → env.current_provider = some prov →
      ((effective_call env prov).1.success = false → pqRecords env q = []) ∧
      ((effective_call env prov).1.success = true → (pqRecords env q).length = 1)) := by
  have hcase : pqRecords env q = [] ∨ (pqRecords env q).length = 1 := by
    by_cases hs : (check_safety (.pystr q)).safe = false
    · exact Or.inl (run_rejected env q hs).1
    · have hs' : (check_safety (.pystr q)).safe = true := by
        cases h : (check_safety (.pystr q)).safe
        · exact absurd h hs
        · rfl
      cases hc : env.current_provider with
      | none => exact Or.inl (run_no_provider env q hs' hc).1
      | some prov =>
        by_cases hf : (effective_call env prov).1.success = false
        · exact Or.inl (run_api_failed env q prov hs' hc hf).1
        · have hsucc : (effective_call env prov).1.success = true := by
            cases h : (effective_call env prov).1.success
            · exact absurd h hf
            · rfl
          by_cases hb : (mask_output (effective_call env prov).1.content).action
              = MaskAction.block
          · obtain ⟨_, _, _, r, hr, _⟩ := run_blocked env q prov hs' hc hsucc hb
            exact Or.inr (by rw [hr]; rfl)
          · exact Or.inr (run_delivered env q prov hs' hc hsucc hb).1
  refine ⟨?_, ?_, ?_, ?_⟩
  · rcases hcase with h | h
    · rw [h]; decide
    · omega
  · intro hs; exact (run_rejected env q hs).1
  · intro hs hc; exact (run_no_provider env q hs hc).1
  · intro prov hs hc
    refine ⟨fun hf => (run_api_failed env q prov hs hc hf).1, fun hsucc => ?_⟩
    by_cases hb : (mask_output (effective_call env prov).1.content).action = MaskAction.block
    · obtain ⟨_, _, _, r, hr, _⟩ := run_blocked env q prov hs hc hsucc hb
      rw [hr]; rfl
    · exact (run_delivered env q prov hs hc hsucc hb).1

def envAllFail : PipelineEnv :=
  mkEnv (some sampleProvider) none (failResult (cs "boom")) (failResult (cs "boom"))

/-- C1 counterexample: a run that reaches the `AllProvidersFailed` terminal
state (primary fails, no fallback available, aggregate error reported) appends
no metrics record, not exactly one. -/
theorem metrics_record_all_failed_counterexample :
    (check_safety (.pystr sampleQuestion)).safe = true ∧
    (pqResult envAllFail sampleQuestion).error = some (cs "boom") ∧
    pqRecords envAllFail sampleQuestion = [] := by
  have hs : (check_safety (.pystr sampleQuestion)).safe = true := by
    rw [check_safety_sample]
  obtain ⟨hrec, _, herr, _⟩ :=
    run_api_failed envAllFail sampleQuestion sampleProvider hs rfl (by decide)
  refine ⟨hs, ?_, hrec⟩
  rw [herr]
  have : (effective_call envAllFail sampleProvider).1.error = cs "boom" := by decide
  rw [this]

def envDelivered : PipelineEnv :=
  mkEnv (some sampleProvider) none
    (okResult (cs "a perfectly ordinary long response")) (failResult [])

theorem metrics_record_per_terminal_state_witness :
    (check_safety (.pystr sampleQuestion)).safe = true ∧
    (effective_call envDelivered sampleProvider).1.success = true ∧
    (pqRecords envDelivered sampleQuestion).length = 1 := by
  have hs : (check_safety (.pystr sampleQuestion)).safe = true := by
    rw [check_safety_sample]
  exact ⟨hs, by decide,
    ((metrics_record_per_terminal_state envDelivered sampleQuestion).2.2.2
      sampleProvider hs rfl).2 (by decide)⟩

/-- C3: whenever the output gate blocks the backend content, the caller
receives the fixed refusal answer (never the content itself), a non-null
`safety_warning`, and exactly one metrics record with
`safety_check_passed = false` is appended. -/
theorem blocked_output_never_reaches_caller (env : PipelineEnv) (q : List Char)
    (prov : ProviderInfo)
    (hs : (check_safety (.pystr q)).safe = true)
    (hc : env.current_provider = some prov)
    (hsucc : (effective_call env prov).1.success = true)
    (hb : (mask_output (effective_call env prov).1.content).action = MaskAction.block) :
    (pqResult env q).answer = cs "I cannot process this request" ∧
    (pqResult env q).answer ≠ (effective_call env prov).1.content ∧
    (pqResult env q).safety_warning.isSome = true ∧
    (∃ r, pqRecords env q = [r] ∧ r.safety_check_passed = false) := by
  obtain ⟨hans, hwarn, _, hrec⟩ := run_blocked env q prov hs hc hsucc hb
  refine ⟨hans, ?_, by rw [hwarn]; rfl, hrec⟩
  rw [hans]
  intro heq
  rw [← heq] at hb
  exact absurd hb (by decide)

def envBlocked : PipelineEnv :=
  mkEnv (some sampleProvider) none (okResult (cs "123")) (failResult [])

theorem blocked_output_never_reaches_caller_witness :
    (mask_output (effective_call envBlocked sampleProvider).1.content).action
      = MaskAction.block ∧
    (pqResult envBlocked sampleQuestion).answer = cs "I cannot process this request" ∧
    (pqResult envBlocked sampleQuestion).answer
      ≠ (effective_call envBlocked sampleProvider).1.content ∧
    (pqResult envBlocked sampleQuestion).safety_warning.isSome = true := by
  have hs : (check_safety (.pystr sampleQuestion)).safe = true := by
    rw [check_safety_sample]
  obtain ⟨h1, h2, h3, _⟩ := blocked_output_never_reaches_caller envBlocked sampleQuestion
    sampleProvider hs rfl (by decide) (by decide)
  exact ⟨by decide, h1, h2, h3⟩

/-- C8: a `process_query` run invokes at most two providers — the current one
and, only when its call fails, exactly one fallback — and when the fallback
also fails the pipeline reports the aggregate failure (the fallback's error)
without attempting a third provider. -/
theorem at_most_two_provider_calls (env : PipelineEnv) (q : List Char) :
    (pqCalls env q).length ≤ 2 ∧
    (∀ prov fb, (check_safety (.pystr q)).safe = true →
      env.current_provider = some prov →
      env.primary_result.success = false →
      env.fallback_provider = some fb →
      env.fallback_result.success = false →
      pqCalls env q = [prov, fb] ∧
      (pqResult env q).error = some env.fallback_result.error ∧
      (pqResult env q).answer = cs "Error processing request: " ++ env.fallback_result.error) := by
  constructor
  · by_cases hs : (check_safety (.pystr q)).safe = false
    · rw [(run_rejected env q hs).2]; decide
    · have hs' : (check_safety (.pystr q)).safe = true := by
        cases h : (check_safety (.pystr q)).safe
        · exact absurd h hs
        · rfl
      cases hc : env.current_provider with
      | none => rw [(run_no_provider env q hs' hc).2]; decide
      | some prov =>
        by_cases hf : (effective_call env prov).1.success = false
        · rw [(run_api_failed env q prov hs' hc hf).2.1]
          exact effective_call_calls_le_two env prov
        · have hsucc : (effective_call env prov).1.success = true := by
            cases h : (effective_call env prov).1.success
            · exact absurd h hf
            · rfl
          by_cases hb : (mask_output (effective_call env prov).1.content).action
              = MaskAction.block
          · rw [(run_blocked env q prov hs' hc hsucc hb).2.2.1]
            exact effective_call_calls_le_two env prov
          · rw [(run_delivered env q prov hs' hc hsucc hb).2]
            exact effective_call_calls_le_two env prov
  · intro prov fb hs hc h1 h2 h3
    have heff := effective_call_both_fail env prov fb h1 h2
    have hf : (effective_call env prov).1.success = false := by rw [heff]; exact h3
    obtain ⟨_, hcalls, herr, hans⟩ := run_api_failed env q prov hs hc hf
    refine ⟨?_, ?_, ?_⟩
    · rw [hcalls, heff]
    · rw [herr, heff]
    · rw [hans, heff]

def envBothFail : PipelineEnv :=
  mkEnv (some sampleProvider) (some fallbackSample)
    (failResult (cs "primary down")) (failResult (cs "fallback down"))

theorem at_most_two_provider_calls_witness :
    (check_safety (.pystr sampleQuestion)).safe = true ∧
    pqCalls envBothFail sampleQuestion = [sampleProvider, fallbackSample] ∧
    (pqResult envBothFail sampleQuestion).error = some (cs "fallback down") := by
  have hs : (check_safety (.pystr sampleQuestion)).safe = true := by
    rw [check_safety_sample]
  obtain ⟨hcalls, herr, _⟩ :=
    (at_most_two_provider_calls envBothFail sampleQuestion).2 sampleProvider fallbackSample
      hs rfl rfl rfl rfl
  exact ⟨hs, hcalls, herr⟩

end TextUtil
